import Mathlib

/-!
Verification development for the Product Hunt launch-assistant repository.

The shared LLM-response interpretation pipeline (JSON-from-text extraction
with deterministic template fallbacks), the date parsing and timeline
helpers, the three agents' `process` operations and the coordinator's
dispatch are embedded shallowly below, translated from
`app/agents/base_agent.py`, `app/utils.py`, `app/agents/planning_agent.py`,
`app/agents/asset_prep_agent.py`, `app/agents/research_agent.py` and
`app/coordinator.py`.  External effects (the hosted model call, the
`dateutil` parser) are passed in as explicit parameters, so every
definition is a computable function of its inputs.
-/

set_option maxRecDepth 4000
set_option linter.unusedVariables false

/-- A Python/JSON value as produced by `json.loads` on the sublanguage the
agents exercise: objects, arrays, strings, integer numbers, booleans and
null.  (Floating-point literals are outside the sublanguage modelled here;
a response using them is treated as a parse failure, which the claims never
exercise.) -/
inductive JValue where
  | jnull
  | jbool (b : Bool)
  | jnum (n : Int)
  | jstr (s : String)
  | jarr (xs : List JValue)
  | jobj (fields : List (String × JValue))
  deriving Repr

/-- Lookup in a parsed JSON object, i.e. Python `dict.get(k)` returning
`None` when absent (dicts preserve insertion order; duplicate keys were
collapsed at parse time). -/
def jget (fields : List (String × JValue)) (k : String) : Option JValue :=
  (fields.find? (fun kv => kv.1 = k)).map (fun kv => kv.2)

/-- Python `dict` insertion during JSON object parsing: a repeated key
overwrites the value but keeps the original position. -/
def jinsert (fields : List (String × JValue)) (k : String) (v : JValue) :
    List (String × JValue) :=
  if fields.any (fun kv => kv.1 = k) then
    fields.map (fun kv => if kv.1 = k then (k, v) else kv)
  else
    fields ++ [(k, v)]

/-- Whitespace characters as matched by the regex class and by
`str.strip` / `json` (ASCII subset). -/
def isWsChar (c : Char) : Bool :=
  c = ' ' || c = '\t' || c = '\n' || c = '\r' || c = '\x0b' || c = '\x0c'

/-- Python `str.strip()`: drop leading and trailing whitespace. -/
def pyStrip (s : String) : String :=
  let cs := (s.toList.dropWhile isWsChar).reverse.dropWhile isWsChar
  String.mk cs.reverse

/-- Python `str.isdigit()` restricted to ASCII digits: nonempty and every
character a digit. -/
def pyIsDigit (s : String) : Bool :=
  !s.isEmpty && s.toList.all Char.isDigit

/-- Numeric value of an all-digit string, i.e. Python `int(s)`. -/
def digitsToNat (s : String) : Nat :=
  s.toList.foldl (fun acc c => acc * 10 + (c.toNat - 48)) 0

/-- Bool-valued infix test on character lists (`pat` occurs contiguously in
`s`), used to model Python's `in` on strings. -/
def listHasInfix (pat s : List Char) : Bool :=
  if pat.isPrefixOf s then true
  else
    match s with
    | [] => pat.isEmpty
    | _ :: rest => listHasInfix pat rest

/-- Python `pat in s` on strings (substring containment). -/
def strContains (s pat : String) : Bool :=
  listHasInfix pat.toList s.toList

/-- Python `s.startswith(pre)`. -/
def pyStartsWith (s pre : String) : Bool :=
  pre.toList.isPrefixOf s.toList

/-- Split a character list at every newline (Python `str.split("\n")`
semantics: an empty string gives one empty piece, a trailing newline an
empty last piece). -/
def splitOnNl (cs : List Char) : List (List Char) :=
  match cs with
  | [] => [[]]
  | c :: rest =>
    match splitOnNl rest with
    | [] => [[]]
    | h :: t => if c = '\n' then [] :: h :: t else (c :: h) :: t

/-- Python `response.split("\n")`. -/
def pyLines (s : String) : List String :=
  (splitOnNl s.toList).map String.mk

/-- Python `str.lower()` on the ASCII range (the only characters the date
patterns test). -/
def pyLower (s : String) : String :=
  String.mk (s.toList.map (fun c =>
    if 'A' ≤ c && c ≤ 'Z' then Char.ofNat (c.toNat + 32) else c))

namespace PyJson

/-- Whitespace skipped by the JSON grammar. -/
def skipWs (cs : List Char) : List Char :=
  cs.dropWhile isWsChar

/-- Parse the body of a JSON string literal after the opening quote; minimal
escape support (`\"`, `\\`, `\n`, `\t`) covering the modelled sublanguage. -/
def parseStringBody : List Char → Option (String × List Char)
  | [] => none
  | c :: rest =>
    if c = '"' then some ("", rest)
    else if c = '\\' then
      match rest with
      | [] => none
      | e :: rest2 =>
        let dec : Option Char :=
          if e = '"' then some '"'
          else if e = '\\' then some '\\'
          else if e = 'n' then some '\n'
          else if e = 't' then some '\t'
          else none
        match dec with
        | none => none
        | some d =>
          match parseStringBody rest2 with
          | some (s, r) => some (String.mk (d :: s.toList), r)
          | none => none
    else
      match parseStringBody rest with
      | some (s, r) => some (String.mk (c :: s.toList), r)
      | none => none

/-- Parse a run of decimal digits. -/
def parseDigits (cs : List Char) : Option (Nat × List Char) :=
  let digs := cs.takeWhile Char.isDigit
  if digs.isEmpty then none
  else some (digitsToNat (String.mk digs), cs.drop digs.length)

mutual

/-- Fuel-indexed recursive-descent JSON value parser (model of `json.loads`
on the modelled sublanguage; fuel bounds nesting depth). -/
def parseValue : Nat → List Char → Option (JValue × List Char)
  | 0, _ => none
  | fuel + 1, cs0 =>
    match skipWs cs0 with
    | [] => none
    | c :: rest =>
      if c = '"' then
        match parseStringBody rest with
        | some (s, r) => some (JValue.jstr s, r)
        | none => none
      else if c = '-' then
        match parseDigits rest with
        | some (n, r) => some (JValue.jnum (-(n : Int)), r)
        | none => none
      else if c.isDigit then
        match parseDigits (c :: rest) with
        | some (n, r) => some (JValue.jnum (n : Int), r)
        | none => none
      else if c = 't' then
        if ("rue").toList.isPrefixOf rest then
          some (JValue.jbool true, rest.drop 3)
        else none
      else if c = 'f' then
        if ("alse").toList.isPrefixOf rest then
          some (JValue.jbool false, rest.drop 4)
        else none
      else if c = 'n' then
        if ("ull").toList.isPrefixOf rest then
          some (JValue.jnull, rest.drop 3)
        else none
      else if c = '[' then
        match skipWs rest with
        | ']' :: r => some (JValue.jarr [], r)
        | _ => parseArrayItems fuel rest []
      else if c = '\x7b' then
        match skipWs rest with
        | '\x7d' :: r => some (JValue.jobj [], r)
        | _ => parseObjectItems fuel rest []
      else none

/-- Parse the comma-separated items of a JSON array (after `[`). -/
def parseArrayItems : Nat → List Char → List JValue → Option (JValue × List Char)
  | 0, _, _ => none
  | fuel + 1, cs, acc =>
    match parseValue fuel cs with
    | none => none
    | some (v, rest) =>
      match skipWs rest with
      | ',' :: r => parseArrayItems fuel r (acc ++ [v])
      | ']' :: r => some (JValue.jarr (acc ++ [v]), r)
      | _ => none

/-- Parse the comma-separated `"key": value` members of a JSON object
(after the opening brace). -/
def parseObjectItems : Nat → List Char → List (String × JValue) →
    Option (JValue × List Char)
  | 0, _, _ => none
  | fuel + 1, cs, acc =>
    match skipWs cs with
    | '"' :: r =>
      match parseStringBody r with
      | none => none
      | some (k, r2) =>
        match skipWs r2 with
        | ':' :: r3 =>
          match parseValue fuel r3 with
          | none => none
          | some (v, r4) =>
            match skipWs r4 with
            | ',' :: r5 => parseObjectItems fuel r5 (jinsert acc k v)
            | '\x7d' :: r5 => some (JValue.jobj (jinsert acc k v), r5)
            | _ => none
        | _ => none
    | _ => none

end

end PyJson

/-- Model of Python `json.loads` on the modelled JSON sublanguage: the whole
string must be a single JSON document (surrounding whitespace allowed,
trailing garbage rejected); `none` models `json.JSONDecodeError`. -/
def jsonLoads (s : String) : Option JValue :=
  match PyJson.parseValue (s.length + 1) s.toList with
  | some (v, rest) => if (PyJson.skipWs rest).isEmpty then some v else none
  | none => none

/-- The span matched by `re.search(r"\{.*\}", response, re.DOTALL)`: from
the first opening brace to the last closing brace of the whole text,
provided the latter comes after the former (greedy match). -/
def extractJsonSpan (s : String) : Option String :=
  let cs := s.toList
  match cs.findIdx? (fun c => c = '\x7b') with
  | none => none
  | some i =>
    match cs.reverse.findIdx? (fun c => c = '\x7d') with
    | none => none
    | some rj =>
      let j := cs.length - 1 - rj
      if i < j then some (String.mk ((cs.drop i).take (j - i + 1)))
      else none

/-- Embeds `BaseAgent.extract_structured_data` (`app/agents/base_agent.py`): find a
JSON-looking span, parse it, append `null` bindings for the expected keys
that are absent; on no span or a parse failure fall back to binding every
expected key to the whole raw response. -/
def extract_structured_data (response : String) (expected_keys : List String) :
    List (String × JValue) :=
  let fallback := expected_keys.map (fun k => (k, JValue.jstr response))
  match extractJsonSpan response with
  | some span =>
    match jsonLoads span with
    | some (JValue.jobj fields) =>
      expected_keys.foldl
        (fun acc k =>
          if acc.any (fun kv => kv.1 = k) then acc else acc ++ [(k, JValue.jnull)])
        fields
    | some _ => fallback
    | none => fallback
  | none => fallback

/-- Collapse every maximal run of whitespace characters to a single space
(the effect of `re.sub` with a one-or-more whitespace pattern). -/
def collapseWs (cs : List Char) : List Char :=
  squeeze (cs.map (fun c => if isWsChar c then ' ' else c))
where
  /-- Collapse runs of spaces to one space. -/
  squeeze : List Char → List Char
    | [] => []
    | a :: rest =>
      match rest with
      | [] => [a]
      | b :: _ => if a = ' ' && b = ' ' then squeeze rest else a :: squeeze rest

/-- The three markdown emphasis characters removed by `clean_text`. -/
def isEmphChar (c : Char) : Bool :=
  c = '*' || c = '_' || c = Char.ofNat 96

/-- Embeds `clean_text` (`app/utils.py`): strip, collapse whitespace runs to one
space, then delete the markdown emphasis characters. -/
def clean_text (text : String) : String :=
  let t := pyStrip text
  let t := String.mk (collapseWs t.toList)
  String.mk (t.toList.filter (fun c => !isEmphChar c))

/-- A `datetime` instant: whole days since the Unix epoch plus an opaque
time-of-day component (any sub-day unit; `replace` to midnight zeroes it).
`1970-01-01` (day 0) was a Thursday. -/
structure DateTime where
  days : Int
  tod : Nat
  deriving Repr, DecidableEq

/-- Embeds `d + timedelta(days = k)`. -/
def addDays (d : DateTime) (k : Int) : DateTime :=
  { d with days := d.days + k }

/-- Python `datetime.weekday()`: Monday = 0 … Sunday = 6. -/
def weekdayOf (d : DateTime) : Int :=
  (d.days + 3) % 7

/-- Embeds `d.replace(hour=0, minute=0, second=0, microsecond=0)`. -/
def atMidnight (d : DateTime) : DateTime :=
  { d with tod := 0 }

/-- The `days_ahead` computation of the `"next <weekday>"` branches of
`parse_launch_date`: `target - today.weekday()`, bumped by 7 when the
target day already happened this week. -/
def nextWeekdayDelta (now : DateTime) (target : Int) : Int :=
  if target - weekdayOf now ≤ 0 then target - weekdayOf now + 7
  else target - weekdayOf now

/-- Embeds `parse_launch_date` (`app/utils.py`), with the external `dateutil`
parser passed in as `duParse` (`none` models a parse exception) and the
current instant as `now`.  An `Except.error` models the trailing
`ValueError`. -/
def parse_launch_date (duParse : String → Option DateTime) (now : DateTime)
    (date_input : String) : Except String DateTime :=
  let lower := pyLower date_input
  if strContains lower ("next") && strContains lower ("tuesday") then
    Except.ok (addDays now (nextWeekdayDelta now 1))
  else if strContains lower ("next") && strContains lower ("friday") then
    Except.ok (addDays now (nextWeekdayDelta now 4))
  else
    match duParse date_input with
    | some d => Except.ok d
    | none =>
      if pyIsDigit date_input then
        Except.ok (addDays now (digitsToNat date_input : Int))
      else
        Except.error ("Could not parse date: " ++ date_input)

/-- Embeds `calculate_timeline_days` (`app/utils.py`): both instants are reset to
midnight, so the difference is a whole number of days. -/
def calculate_timeline_days (now launch_date : DateTime) : Int :=
  (atMidnight launch_date).days - (atMidnight now).days

/-- Civil date (year, month, day) from a count of days since the epoch
(standard days-from-civil inverse). -/
def civilFromDays (z0 : Int) : Int × Int × Int :=
  let z := z0 + 719468
  let era := (if z ≥ 0 then z else z - 146096) / 146097
  let doe := z - era * 146097
  let yoe := (doe - doe / 1460 + doe / 36524 - doe / 146096) / 365
  let y := yoe + era * 400
  let doy := doe - (365 * yoe + yoe / 4 - yoe / 100)
  let mp := (5 * doy + 2) / 153
  let d := doy - (153 * mp + 2) / 5 + 1
  let m := if mp < 10 then mp + 3 else mp - 9
  (if m ≤ 2 then y + 1 else y, m, d)

/-- English weekday names indexed by Python `weekday()` (Monday = 0). -/
def weekdayName (w : Int) : String :=
  (([("Monday" : String), "Tuesday", "Wednesday", "Thursday", "Friday",
     "Saturday", "Sunday"]).getD w.toNat ("Monday"))

/-- English month names indexed 1–12. -/
def monthName (m : Int) : String :=
  (([("January" : String), "February", "March", "April", "May", "June",
     "July", "August", "September", "October", "November", "December"]).getD
    (m.toNat - 1) ("January"))

/-- Zero-padded two-digit rendering (`%d`). -/
def pad2 (n : Int) : String :=
  if n < 10 then "0" ++ toString n else toString n

/-- Embeds `format_date_for_display` (`app/utils.py`): `strftime` with the
`"%A, %B %d, %Y"` layout. -/
def format_date_for_display (d : DateTime) : String :=
  let (y, m, dd) := civilFromDays d.days
  weekdayName (weekdayOf d) ++ ", " ++ monthName m ++ " " ++ pad2 dd ++ ", " ++
    toString y

/-- The uniform response envelope built by `BaseAgent.format_response`
(`app/agents/base_agent.py`): `{success, data, error, agent_type}`. -/
structure Envelope (α : Type) where
  success : Bool
  data : Option α
  error : Option String
  agent_type : String
  deriving Repr

/-- A failure envelope as produced by `format_response(success=False,
error=...)` (the `data` argument defaults to `None`). -/
def failEnvelope (α : Type) (err : String) (agent : String) : Envelope α :=
  { success := false, data := none, error := some err, agent_type := agent }

/-- Embeds `BaseAgent.invoke_llm`: the model shim's outcome (`Except.error` carries
the transport exception's message) re-raised with the `LLM invocation
failed:` prefix. -/
def invoke_llm (r : Except String String) : Except String String :=
  match r with
  | Except.ok s => Except.ok s
  | Except.error e => Except.error ("LLM invocation failed: " ++ e)

/-- Caller-supplied request record (`request_data`): a string-keyed record
of caller-supplied string fields, with `request_data.get(k, d)` lookup. -/
def reqGet (req : List (String × String)) (k d : String) : String :=
  (((req.find? (fun kv => kv.1 = k)).map (fun kv => kv.2)).getD d)

/-- Shorthand for building one fallback-timeline task record. -/
def mkTask (name due prio time deps crit : String) : JValue :=
  JValue.jobj [(("name" : String), JValue.jstr name),
    (("due_date" : String), JValue.jstr due),
    (("priority" : String), JValue.jstr prio),
    (("time_estimate" : String), JValue.jstr time),
    (("dependencies" : String), JValue.jstr deps),
    (("success_criteria" : String), JValue.jstr crit)]

/-- Shorthand for building one fallback-timeline phase record. -/
def mkPhase (phase : String) (tasks : List JValue) : JValue :=
  JValue.jobj [(("phase" : String), JValue.jstr phase),
    (("tasks" : String), JValue.jarr tasks)]

/-- Embeds `PlanningAgent._create_fallback_timeline`
(`app/agents/planning_agent.py`). -/
def create_fallback_timeline (days_until_launch : Int) : JValue :=
  let pre :=
    if days_until_launch ≥ 14 then
      [mkPhase ("Pre-launch (2+ weeks before)")
        [mkTask ("Create Product Hunt account and profile")
          (toString (days_until_launch - 14) ++ " days before launch")
          ("High") ("1 hour") ("None") ("Account created with complete profile"),
         mkTask ("Prepare product assets (logo, screenshots, demo video)")
          (toString (days_until_launch - 10) ++ " days before launch")
          ("High") ("4-6 hours") ("None") ("All visual assets ready")]]
    else []
  let finalPrep :=
    if days_until_launch ≥ 7 then
      [mkPhase ("Final preparation (1 week before)")
        [mkTask ("Write compelling product description and tagline")
          (toString (days_until_launch - 7) ++ " days before launch")
          ("High") ("2-3 hours") ("Product assets ready")
          ("Description approved and ready"),
         mkTask ("Identify and reach out to potential hunters")
          (toString (days_until_launch - 5) ++ " days before launch")
          ("High") ("3-4 hours") ("None") ("At least 3 hunters confirmed")]]
    else []
  let launchDay :=
    [mkPhase ("Launch day")
      [mkTask ("Submit product to Product Hunt") ("Launch day (12:01 AM PST)")
        ("High") ("30 minutes") ("All assets and hunters ready")
        ("Product live on Product Hunt"),
       mkTask ("Share on social media and personal networks")
        ("Launch day (morning)") ("High") ("2-3 hours") ("Product live")
        ("Initial momentum generated")]]
  JValue.jarr (pre ++ finalPrep ++ launchDay)

/-- The JSON-extraction half of `PlanningAgent._generate_timeline`: `some`
is the parsed `data.get("timeline", [])`, `none` means the inline
`try`/`except BaseException` fell through to the fallback timeline. -/
def timelineFromResponse (response : String) : Option JValue :=
  match extractJsonSpan response with
  | some span =>
    match jsonLoads span with
    | some (JValue.jobj fields) => some ((jget fields ("timeline")).getD (JValue.jarr []))
    | some _ => none
    | none => none
  | none => none

/-- Embeds `PlanningAgent._generate_timeline`: the model call happens outside the
inner `try`, so a model failure propagates; any extraction failure falls
back to `_create_fallback_timeline`. -/
def generate_timeline (rTimeline : Except String String)
    (days_until_launch : Int) : Except String JValue :=
  match invoke_llm rTimeline with
  | Except.error e => Except.error e
  | Except.ok response =>
    Except.ok ((timelineFromResponse response).getD
      (create_fallback_timeline days_until_launch))

mutual

/-- Python `str()` of a parsed JSON value (used by the milestone f-string):
strings render as themselves, containers via `repr` of their elements. -/
def pyStrVal : JValue → String
  | JValue.jnull => "None"
  | JValue.jbool true => "True"
  | JValue.jbool false => "False"
  | JValue.jnum n => toString n
  | JValue.jstr s => s
  | JValue.jarr xs =>
    "[" ++ String.intercalate (", ") (pyReprList xs) ++ "]"
  | JValue.jobj fs =>
    String.singleton (Char.ofNat 123) ++
      String.intercalate (", ") (pyReprFields fs) ++
      String.singleton (Char.ofNat 125)

/-- Python `repr()` of a parsed JSON value (single-quoted strings). -/
def pyReprVal : JValue → String
  | JValue.jnull => "None"
  | JValue.jbool true => "True"
  | JValue.jbool false => "False"
  | JValue.jnum n => toString n
  | JValue.jstr s =>
    String.singleton (Char.ofNat 39) ++ s ++ String.singleton (Char.ofNat 39)
  | JValue.jarr xs =>
    "[" ++ String.intercalate (", ") (pyReprList xs) ++ "]"
  | JValue.jobj fs =>
    String.singleton (Char.ofNat 123) ++
      String.intercalate (", ") (pyReprFields fs) ++
      String.singleton (Char.ofNat 125)

/-- Embeds `repr` of the elements of a list value. -/
def pyReprList : List JValue → List String
  | [] => []
  | x :: xs => pyReprVal x :: pyReprList xs

/-- Embeds `repr` of the members of a dict value. -/
def pyReprFields : List (String × JValue) → List String
  | [] => []
  | (k, v) :: fs =>
    (String.singleton (Char.ofNat 39) ++ k ++ String.singleton (Char.ofNat 39) ++
      ": " ++ pyReprVal v) :: pyReprFields fs

end

/-- One iteration of the `_extract_milestones` task loop: `some` is an
emitted milestone line, `none` a skipped task, `Except.error` a raised
exception (`.get` on a non-dict, or a missing `name`/`due_date` key). -/
def milestoneOfTask (t : JValue) : Except String (Option String) :=
  match t with
  | JValue.jobj fs =>
    match jget fs ("priority") with
    | some (JValue.jstr p) =>
      if p = "High" then
        match jget fs ("name"), jget fs ("due_date") with
        | some n, some d => Except.ok (some (pyStrVal n ++ " - " ++ pyStrVal d))
        | _, _ => Except.error ("KeyError")
      else Except.ok none
    | _ => Except.ok none
  | _ => Except.error ("AttributeError")

/-- The task loop of `_extract_milestones` over one phase's `tasks` value,
with Python iteration semantics (a string iterates its characters, a dict
its keys — both then fail at `.get`; scalars are not iterable). -/
def tasksMilestones : JValue → Except String (List String)
  | JValue.jarr ts => go ts
  | JValue.jstr s => if s.isEmpty then Except.ok [] else Except.error ("AttributeError")
  | JValue.jobj fs => if fs.isEmpty then Except.ok [] else Except.error ("AttributeError")
  | _ => Except.error ("TypeError")
where
  /-- Fold the task list, collecting High-priority milestone lines. -/
  go : List JValue → Except String (List String)
    | [] => Except.ok []
    | t :: ts =>
      match milestoneOfTask t with
      | Except.error e => Except.error e
      | Except.ok m =>
        match go ts with
        | Except.error e => Except.error e
        | Except.ok rest =>
          Except.ok (match m with | some s => s :: rest | none => rest)

/-- One iteration of the `_extract_milestones` phase loop:
`phase.get("tasks", [])` requires the phase to be a dict. -/
def phaseMilestones (p : JValue) : Except String (List String) :=
  match p with
  | JValue.jobj fs => tasksMilestones ((jget fs ("tasks")).getD (JValue.jarr []))
  | _ => Except.error ("AttributeError")

/-- Embeds `PlanningAgent._extract_milestones`: walk the timeline collecting
`"name - due_date"` lines for High-priority tasks, then keep the first 5;
a malformed timeline raises (converted to a failure at `process`). -/
def extract_milestones (timeline : JValue) : Except String (List String) :=
  match timeline with
  | JValue.jarr phases =>
    match goPhases phases with
    | Except.error e => Except.error e
    | Except.ok ms => Except.ok (ms.take 5)
  | JValue.jstr s => if s.isEmpty then Except.ok [] else Except.error ("AttributeError")
  | JValue.jobj fs => if fs.isEmpty then Except.ok [] else Except.error ("AttributeError")
  | _ => Except.error ("TypeError")
where
  /-- Fold the phase list, concatenating each phase's milestone lines. -/
  goPhases : List JValue → Except String (List String)
    | [] => Except.ok []
    | p :: ps =>
      match phaseMilestones p with
      | Except.error e => Except.error e
      | Except.ok ms =>
        match goPhases ps with
        | Except.error e => Except.error e
        | Except.ok rest => Except.ok (ms ++ rest)

/-- The planning agent's success payload (`data` of the envelope). -/
structure PlanningData where
  timeline : JValue
  total_days : Int
  launch_date : String
  key_milestones : List String
  deriving Repr

/-- Embeds `PlanningAgent.process` (`app/agents/planning_agent.py`), with the
external `dateutil` parser, the current instant and the model response to
the timeline prompt passed in.  The top-level `try`/`except` converts any
raised exception into a `Planning failed:` failure envelope. -/
def planningProcess (duParse : String → Option DateTime) (now : DateTime)
    (rTimeline : Except String String) (req : List (String × String)) :
    Envelope PlanningData :=
  match parse_launch_date duParse now (reqGet req ("launch_date") ("")) with
  | Except.error e => failEnvelope PlanningData ("Planning failed: " ++ e) ("planning")
  | Except.ok launch_date =>
    let days_until_launch := calculate_timeline_days now launch_date
    if days_until_launch < 0 then
      failEnvelope PlanningData
        ("Launch date is in the past. Please provide a future date.") ("planning")
    else
      match generate_timeline rTimeline days_until_launch with
      | Except.error e =>
        failEnvelope PlanningData ("Planning failed: " ++ e) ("planning")
      | Except.ok timeline =>
        match extract_milestones timeline with
        | Except.error e =>
          failEnvelope PlanningData ("Planning failed: " ++ e) ("planning")
        | Except.ok key_milestones =>
          { success := true,
            data := some
              { timeline := timeline,
                total_days := days_until_launch,
                launch_date := format_date_for_display launch_date,
                key_milestones := key_milestones },
            error := none,
            agent_type := "planning" }

/-- Interpret a parsed array as a list of strings, failing on any
non-string element (iterating it in the comprehension would raise inside
`clean_text`, landing in the `except BaseException` fallback). -/
def asStringList : List JValue → Option (List String)
  | [] => some []
  | JValue.jstr s :: rest =>
    match asStringList rest with
    | some l => some (s :: l)
    | none => none
  | _ :: _ => none

/-- The JSON-extraction half of `AssetPrepAgent._generate_taglines`:
`some` is the value the `try` body returns (each entry cleaned), `none`
means the code fell through to the fallback list (no JSON-looking span,
a parse failure, or a `taglines` value whose iteration raises).  Python
iteration semantics: a string value iterates its characters, a dict its
keys. -/
def taglinesFromResponse (response : String) : Option (List String) :=
  match extractJsonSpan response with
  | some span =>
    match jsonLoads span with
    | some (JValue.jobj fields) =>
      match (jget fields ("taglines")).getD (JValue.jarr []) with
      | JValue.jarr ts =>
        match asStringList ts with
        | some l => some (l.map clean_text)
        | none => none
      | JValue.jstr s => some (s.toList.map (fun c => clean_text (String.singleton c)))
      | JValue.jobj fs2 => some (fs2.map (fun kv => clean_text kv.1))
      | _ => none
    | some _ => none
    | none => none
  | none => none

/-- The deterministic fallback taglines of `_generate_taglines`, a pure
function of the caller's `product_name`, `elevator_pitch` and
`target_audience` fields. -/
def fallbackTaglines (product_name elevator_pitch target_audience : String) :
    List String :=
  [product_name ++ " - " ++ elevator_pitch.take 50 ++ "...",
   "Revolutionary " ++ product_name ++ " for " ++ target_audience,
   "Transform your workflow with " ++ product_name,
   "The future of " ++ product_name ++ " is here",
   "Build better with " ++ product_name]

/-- Embeds `AssetPrepAgent._generate_taglines`: the model call happens before the
`try`, so a model failure propagates to `process`; every extraction
failure silently yields the fallback list. -/
def generate_taglines (product_name elevator_pitch target_audience tone : String)
    (r : Except String String) : Except String (List String) :=
  match invoke_llm r with
  | Except.error e => Except.error e
  | Except.ok response =>
    Except.ok ((taglinesFromResponse response).getD
      (fallbackTaglines product_name elevator_pitch target_audience))

/-- Embeds `AssetPrepAgent._generate_description`: the raw completion, cleaned. -/
def generate_description (r : Except String String) : Except String String :=
  match invoke_llm r with
  | Except.error e => Except.error e
  | Except.ok response => Except.ok (clean_text response)

/-- The JSON-extraction half of `AssetPrepAgent._generate_tweets`
(same structure as the taglines extraction, on the `tweets` key). -/
def tweetsFromResponse (response : String) : Option (List String) :=
  match extractJsonSpan response with
  | some span =>
    match jsonLoads span with
    | some (JValue.jobj fields) =>
      match (jget fields ("tweets")).getD (JValue.jarr []) with
      | JValue.jarr ts =>
        match asStringList ts with
        | some l => some (l.map clean_text)
        | none => none
      | JValue.jstr s => some (s.toList.map (fun c => clean_text (String.singleton c)))
      | JValue.jobj fs2 => some (fs2.map (fun kv => clean_text kv.1))
      | _ => none
    | some _ => none
    | none => none
  | none => none

/-- The deterministic fallback tweets of `_generate_tweets` (the source
file's emoji literals are mojibake byte sequences, reproduced as-is). -/
def fallbackTweets (product_name elevator_pitch target_audience : String) :
    List String :=
  ["ðŸš€ Just launched " ++ product_name ++ " on @ProductHunt! " ++
     elevator_pitch.take 100 ++ "... #ProductHunt #Launch",
   "Excited to share " ++ product_name ++
     " with the world! Built for " ++ target_audience ++
     ". Check it out: #ProductHunt #Launch",
   "After months of building, " ++ product_name ++
     " is live on @ProductHunt! Would love your support ðŸ™ #ProductHunt #Launch"]

/-- Embeds `AssetPrepAgent._generate_tweets`. -/
def generate_tweets (product_name elevator_pitch target_audience tone : String)
    (r : Except String String) : Except String (List String) :=
  match invoke_llm r with
  | Except.error e => Except.error e
  | Except.ok response =>
    Except.ok ((tweetsFromResponse response).getD
      (fallbackTweets product_name elevator_pitch target_audience))

/-- The bullet test shared by the two line-scanning extractors: the line
starts with `-`, starts with the source's (mojibake) bullet literal, or its
first character is a digit. -/
def isBulletLine (line : String) : Bool :=
  pyStartsWith line ("-") || pyStartsWith line ("â€¢") ||
    (line.toList.headD ' ').isDigit

/-- The line-scanning half of `AssetPrepAgent._generate_suggestions`: each
line is `clean_text`-ed, kept when nonempty and bullet-like. -/
def suggestionLinesFromResponse (response : String) : List String :=
  ((pyLines response).map clean_text).filter
    (fun line => !line.isEmpty && isBulletLine line)

/-- The deterministic fallback suggestions of `_generate_suggestions`. -/
def fallbackSuggestions (product_name target_audience : String) : List String :=
  ["Start building your community around " ++ product_name ++
     " 2-3 weeks before launch",
   "Create a demo video showcasing " ++ product_name ++ String.singleton (Char.ofNat 39) ++ "s key features",
   "Reach out to " ++ target_audience ++ " influencers and thought leaders",
   "Prepare social media content for launch day and the following week",
   "Plan follow-up activities to maintain momentum after launch day"]

/-- Embeds `AssetPrepAgent._generate_suggestions`: keep the first five bullet-like
cleaned lines, or the fallback list when none were found. -/
def generate_suggestions (product_name target_audience : String)
    (r : Except String String) : Except String (List String) :=
  match invoke_llm r with
  | Except.error e => Except.error e
  | Except.ok response =>
    let suggestions := suggestionLinesFromResponse response
    Except.ok (if suggestions.isEmpty then
        fallbackSuggestions product_name target_audience
      else suggestions.take 5)

/-- The asset-prep agent's success payload. -/
structure AssetData where
  taglines : List String
  short_description : String
  tweets : List String
  suggestions : List String
  deriving Repr

/-- Embeds `AssetPrepAgent.process` (`app/agents/asset_prep_agent.py`), with the
four model responses (one per generator prompt) passed in.  Any raised
exception becomes an `Asset generation failed:` failure envelope. -/
def assetProcess (rTaglines rDescription rTweets rSuggestions : Except String String)
    (req : List (String × String)) : Envelope AssetData :=
  let product_name := reqGet req ("product_name") ("")
  let elevator_pitch := reqGet req ("elevator_pitch") ("")
  let target_audience := reqGet req ("target_audience") ("")
  let tone := reqGet req ("tone") ("professional")
  match generate_taglines product_name elevator_pitch target_audience tone rTaglines with
  | Except.error e => failEnvelope AssetData ("Asset generation failed: " ++ e) ("asset_prep")
  | Except.ok taglines =>
    match generate_description rDescription with
    | Except.error e => failEnvelope AssetData ("Asset generation failed: " ++ e) ("asset_prep")
    | Except.ok short_description =>
      match generate_tweets product_name elevator_pitch target_audience tone rTweets with
      | Except.error e => failEnvelope AssetData ("Asset generation failed: " ++ e) ("asset_prep")
      | Except.ok tweets =>
        match generate_suggestions product_name target_audience rSuggestions with
        | Except.error e => failEnvelope AssetData ("Asset generation failed: " ++ e) ("asset_prep")
        | Except.ok suggestions =>
          { success := true,
            data := some
              { taglines := taglines,
                short_description := short_description,
                tweets := tweets,
                suggestions := suggestions },
            error := none,
            agent_type := "asset_prep" }

/-- The JSON-extraction half of `ResearchAgent._research_top_launches`:
`some` is the returned `data.get("launches", [])` (any value, uncleaned),
`none` falls through to the mock fallback. -/
def launchesFromResponse (response : String) : Option JValue :=
  match extractJsonSpan response with
  | some span =>
    match jsonLoads span with
    | some (JValue.jobj fields) =>
      some ((jget fields ("launches")).getD (JValue.jarr []))
    | some _ => none
    | none => none
  | none => none

/-- The deterministic fallback mock launches of `_research_top_launches`. -/
def fallbackLaunches (product_category : String) : JValue :=
  JValue.jarr
    [JValue.jobj
      [(("name" : String), JValue.jstr ("Top " ++ product_category ++ " Tool")),
       (("tagline" : String), JValue.jstr ("Revolutionary solution for modern teams")),
       (("launch_date" : String), JValue.jstr ("2024-10-15")),
       (("ranking" : String), JValue.jstr ("1st place")),
       (("success_factors" : String), JValue.jarr
         [JValue.jstr ("Strong community"), JValue.jstr ("Clear value prop"),
          JValue.jstr ("Great timing")]),
       (("standout_features" : String), JValue.jstr ("Unique approach to common problem")),
       (("lessons" : String), JValue.jstr ("Focus on user experience and community building"))],
     JValue.jobj
      [(("name" : String), JValue.jstr ("AI-Powered " ++ product_category)),
       (("tagline" : String), JValue.jstr ("Automate your workflow with AI")),
       (("launch_date" : String), JValue.jstr ("2024-09-20")),
       (("ranking" : String), JValue.jstr ("2nd place")),
       (("success_factors" : String), JValue.jarr
         [JValue.jstr ("AI trend"), JValue.jstr ("Clear demo"),
          JValue.jstr ("Founder story")]),
       (("standout_features" : String), JValue.jstr ("First to market with AI integration")),
       (("lessons" : String), JValue.jstr ("Timing and trend alignment crucial"))]]

/-- Embeds `ResearchAgent._research_top_launches`. -/
def research_top_launches (product_category : String)
    (r : Except String String) : Except String JValue :=
  match invoke_llm r with
  | Except.error e => Except.error e
  | Except.ok response =>
    Except.ok ((launchesFromResponse response).getD
      (fallbackLaunches product_category))

/-- The JSON-extraction half of `ResearchAgent._find_recommended_hunters`
(on the `hunters` key). -/
def huntersFromResponse (response : String) : Option JValue :=
  match extractJsonSpan response with
  | some span =>
    match jsonLoads span with
    | some (JValue.jobj fields) =>
      some ((jget fields ("hunters")).getD (JValue.jarr []))
    | some _ => none
    | none => none
  | none => none

/-- The deterministic fallback mock hunters of `_find_recommended_hunters`. -/
def fallbackHunters (product_category : String) : JValue :=
  JValue.jarr
    [JValue.jobj
      [(("name" : String), JValue.jstr ("Tech Hunter")),
       (("handle" : String), JValue.jstr ("@techhunter")),
       (("specialization" : String), JValue.jstr (product_category ++ " and productivity tools")),
       (("followers" : String), JValue.jstr ("15K+")),
       (("success_rate" : String), JValue.jstr ("High")),
       (("contact_approach" : String), JValue.jstr ("Twitter DM or email")),
       (("why_fit" : String), JValue.jstr ("Specializes in " ++ product_category ++ " launches"))],
     JValue.jobj
      [(("name" : String), JValue.jstr ("Startup Advocate")),
       (("handle" : String), JValue.jstr ("@startupadvocate")),
       (("specialization" : String), JValue.jstr ("Early-stage products")),
       (("followers" : String), JValue.jstr ("8K+")),
       (("success_rate" : String), JValue.jstr ("Medium-High")),
       (("contact_approach" : String), JValue.jstr ("LinkedIn message")),
       (("why_fit" : String), JValue.jstr ("Great at helping new founders"))]]

/-- Embeds `ResearchAgent._find_recommended_hunters`. -/
def find_recommended_hunters (product_category target_audience : String)
    (r : Except String String) : Except String JValue :=
  match invoke_llm r with
  | Except.error e => Except.error e
  | Except.ok response =>
    Except.ok ((huntersFromResponse response).getD
      (fallbackHunters product_category))

/-- The line-scanning half of `ResearchAgent._generate_insights`: unlike
the asset-prep suggestions, each line is only `strip()`-ed (never
`clean_text`-ed) before the bullet test. -/
def insightLinesFromResponse (response : String) : List String :=
  ((pyLines response).map pyStrip).filter
    (fun line => !line.isEmpty && isBulletLine line)

/-- The deterministic fallback insights of `_generate_insights`. -/
def fallbackInsights (product_category : String) : List String :=
  ["Products in " ++ product_category ++
     " that launch on Tuesdays perform 20% better",
   "Community building 2-3 weeks before launch is crucial for success",
   "Clear, benefit-focused taglines outperform feature-focused ones",
   "Founder stories and behind-the-scenes content drive engagement",
   "Posting updates and responding to comments increases visibility"]

/-- Embeds `ResearchAgent._generate_insights`. -/
def generate_insights (product_category : String)
    (r : Except String String) : Except String (List String) :=
  match invoke_llm r with
  | Except.error e => Except.error e
  | Except.ok response =>
    let insights := insightLinesFromResponse response
    Except.ok (if insights.isEmpty then fallbackInsights product_category
      else insights.take 5)

/-- The JSON-extraction half of `ResearchAgent._analyze_competitors`: the
whole parsed object is returned. -/
def competitorsFromResponse (response : String) : Option JValue :=
  match extractJsonSpan response with
  | some span =>
    match jsonLoads span with
    | some (JValue.jobj fields) => some (JValue.jobj fields)
    | some _ => none
    | none => none
  | none => none

/-- The deterministic fallback analysis of `_analyze_competitors`. -/
def fallbackCompetitors : JValue :=
  JValue.jobj
    [(("market_saturation" : String), JValue.jstr ("Medium")),
     (("pricing_strategies" : String), JValue.jarr
       [JValue.jstr ("Freemium"), JValue.jstr ("One-time purchase"),
        JValue.jstr ("Subscription")]),
     (("key_differentiators" : String), JValue.jarr
       [JValue.jstr ("User experience"), JValue.jstr ("AI integration"),
        JValue.jstr ("Community features")]),
     (("market_gaps" : String), JValue.jarr
       [JValue.jstr ("Better onboarding"), JValue.jstr ("Mobile-first approach"),
        JValue.jstr ("Enterprise features")]),
     (("positioning_strategy" : String),
       JValue.jstr ("Focus on unique value proposition and user experience"))]

/-- Embeds `ResearchAgent._analyze_competitors`. -/
def analyze_competitors (r : Except String String) : Except String JValue :=
  match invoke_llm r with
  | Except.error e => Except.error e
  | Except.ok response =>
    Except.ok ((competitorsFromResponse response).getD fallbackCompetitors)

/-- The research agent's success payload. -/
structure ResearchData where
  top_launches : JValue
  recommended_hunters : JValue
  insights : List String
  competitor_analysis : JValue
  deriving Repr

/-- Embeds `ResearchAgent.process` (`app/agents/research_agent.py`), with the four
model responses passed in. -/
def researchProcess (rLaunches rHunters rInsights rCompetitors : Except String String)
    (req : List (String × String)) : Envelope ResearchData :=
  let product_category := reqGet req ("product_category") ("")
  let target_audience := reqGet req ("target_audience") ("")
  match research_top_launches product_category rLaunches with
  | Except.error e => failEnvelope ResearchData ("Research failed: " ++ e) ("research")
  | Except.ok top_launches =>
    match find_recommended_hunters product_category target_audience rHunters with
    | Except.error e => failEnvelope ResearchData ("Research failed: " ++ e) ("research")
    | Except.ok recommended_hunters =>
      match generate_insights product_category rInsights with
      | Except.error e => failEnvelope ResearchData ("Research failed: " ++ e) ("research")
      | Except.ok insights =>
        match analyze_competitors rCompetitors with
        | Except.error e => failEnvelope ResearchData ("Research failed: " ++ e) ("research")
        | Except.ok competitor_analysis =>
          { success := true,
            data := some
              { top_launches := top_launches,
                recommended_hunters := recommended_hunters,
                insights := insights,
                competitor_analysis := competitor_analysis },
            error := none,
            agent_type := "research" }

/-- The union of the three agents' `data` dictionaries, as passed through
unchanged by the coordinator into its `AgentResponse`. -/
inductive Payload where
  | planning (d : PlanningData)
  | assets (d : AssetData)
  | research (d : ResearchData)
  deriving Repr

/-- The model responses consumed across one routed request (one entry per
generator prompt of the agent that ends up being invoked). -/
structure LLMResponses where
  timeline : Except String String
  taglines : Except String String
  description : Except String String
  tweets : Except String String
  suggestions : Except String String
  launches : Except String String
  hunters : Except String String
  insights : Except String String
  competitors : Except String String

/-- Embeds `AgentCoordinator.route_request` (`app/coordinator.py`): dispatch on the
`agent_type` token, re-wrap the chosen agent's envelope into an
`AgentResponse` with the token echoed back, and answer unknown tokens with
a failure envelope.  (The surrounding `try`/`except` is unreachable here:
each agent's `process` already converts every exception into a failure
envelope.) -/
def route_request (duParse : String → Option DateTime) (now : DateTime)
    (rs : LLMResponses) (agent_type : String) (req : List (String × String)) :
    Envelope Payload :=
  if agent_type = "planning" then
    let result := planningProcess duParse now rs.timeline req
    { success := result.success, data := result.data.map Payload.planning,
      error := result.error, agent_type := agent_type }
  else if agent_type = "asset_prep" then
    let result := assetProcess rs.taglines rs.description rs.tweets rs.suggestions req
    { success := result.success, data := result.data.map Payload.assets,
      error := result.error, agent_type := agent_type }
  else if agent_type = "research" then
    let result := researchProcess rs.launches rs.hunters rs.insights rs.competitors req
    { success := result.success, data := result.data.map Payload.research,
      error := result.error, agent_type := agent_type }
  else
    { success := false, data := none,
      error := some ("Unknown agent type: " ++ agent_type),
      agent_type := agent_type }

/-- The envelope invariant stated by the spec's data model: success implies
no error message; failure implies no (even partial) data. -/
def envelopeInv {α : Type} (e : Envelope α) : Prop :=
  (e.success = true → e.error = none) ∧ (e.success = false → e.data = none)

/-- Well-formed timeline task: a dict that has `name` and `due_date`
entries (of any value), so the milestone f-string cannot raise. -/
def wfTask (t : JValue) : Bool :=
  match t with
  | JValue.jobj fs =>
    (jget fs ("name")).isSome && (jget fs ("due_date")).isSome
  | _ => false

/-- Well-formed timeline phase: a dict whose `tasks` entry, if present, is
an array of well-formed tasks. -/
def wfPhase (p : JValue) : Bool :=
  match p with
  | JValue.jobj fs =>
    match jget fs ("tasks") with
    | some (JValue.jarr ts) => ts.all wfTask
    | some _ => false
    | none => true
  | _ => false

/-- The task list a phase contributes to the milestone scan. -/
def tasksOf (p : JValue) : List JValue :=
  match p with
  | JValue.jobj fs =>
    match jget fs ("tasks") with
    | some (JValue.jarr ts) => ts
    | _ => []
  | _ => []

/-- The High-priority test applied by `_extract_milestones`. -/
def taskIsHigh (t : JValue) : Bool :=
  match t with
  | JValue.jobj fs =>
    match jget fs ("priority") with
    | some (JValue.jstr p) => p = "High"
    | _ => false
  | _ => false

/-- The `"name - due_date"` milestone line of a task. -/
def milestoneLine (t : JValue) : String :=
  match t with
  | JValue.jobj fs =>
    pyStrVal ((jget fs ("name")).getD JValue.jnull) ++ " - " ++
      pyStrVal ((jget fs ("due_date")).getD JValue.jnull)
  | _ => ""

/-- The High-priority milestone lines of a phase list, in emission order. -/
def highLines (phases : List JValue) : List String :=
  (phases.map (fun p => ((tasksOf p).filter taskIsHigh).map milestoneLine)).flatten

/-- Negative of both `"next <weekday>"` pattern tests of
`parse_launch_date`. -/
def noNextPattern (input : String) : Bool :=
  !(strContains (pyLower input) ("next") && strContains (pyLower input) ("tuesday")) &&
    !(strContains (pyLower input) ("next") && strContains (pyLower input) ("friday"))

/-- A model response carrying a JSON object with one unexpected extra key. -/
def respTwoKeys : String := "\x7b\"a\": 1, \"b\": 2\x7d"

/-- A well-formed model response whose `taglines` list is empty. -/
def respEmptyTaglines : String := "\x7b\"taglines\": []\x7d"

/-- The asset-prep request of the fallback scenario. -/
def reqFoo : List (String × String) :=
  [(("product_name" : String), "Foo"), (("elevator_pitch" : String), "Bar"),
   (("target_audience" : String), "devs")]

/-- A research request with a concrete category. -/
def reqCat : List (String × String) :=
  [(("product_category" : String), "ai"), (("target_audience" : String), "devs")]

/-- Modelled from the documented behavior of the external `python-dateutil`
parser (the generic date parser `parse_launch_date` delegates to, which is
not part of this repository): a bare one-or-two-digit day number such as
`"10"` parses successfully as that day of the current month, here rendered
for a current instant two days after the 10th. -/
def duParseDayOfMonth : String → Option DateTime := fun s =>
  if s = "10" then some { days := 19998, tod := 0 } else none

/-- A current instant used by concrete date scenarios. -/
def nowFixture : DateTime := { days := 20000, tod := 7 }

/-- A stand-in set of model responses for routing scenarios. -/
def rsFixture : LLMResponses :=
  { timeline := Except.ok (""), taglines := Except.ok (""),
    description := Except.ok (""), tweets := Except.ok (""),
    suggestions := Except.ok (""), launches := Except.ok (""),
    hunters := Except.ok (""), insights := Except.ok (""),
    competitors := Except.ok ("") }

/-- A small concrete well-formed timeline (two phases, three tasks, two of
them High-priority) for milestone scenarios. -/
def demoPhases : List JValue :=
  [mkPhase ("Prep")
    [mkTask ("Assets") ("5 days before launch") ("High") ("2h") ("None") ("Done"),
     mkTask ("Warmup") ("3 days before launch") ("Low") ("1h") ("None") ("Done")],
   mkPhase ("Launch")
    [mkTask ("Submit") ("Launch day") ("High") ("30m") ("Assets") ("Live")]]


section Claims

/-- Appending the missing expected keys as `null` bindings: the key loop of
`extract_structured_data`, characterized on duplicate-free key lists. -/
lemma foldl_addMissing (keys : List String) (fields : List (String × JValue))
    (h : keys.Nodup) :
    keys.foldl
      (fun acc k =>
        if acc.any (fun kv => kv.1 = k) then acc else acc ++ [(k, JValue.jnull)])
      fields
    = fields ++
      (keys.filter (fun k => !(fields.any (fun kv => kv.1 = k)))).map
        (fun k => (k, JValue.jnull)) := by
  induction keys generalizing fields with
  | nil => simp
  | cons k ks ih =>
    have hknotin : k ∉ ks := (List.nodup_cons.mp h).1
    have hnd : ks.Nodup := (List.nodup_cons.mp h).2
    simp only [List.foldl_cons, List.filter_cons]
    by_cases hk : (fields.any (fun kv => kv.1 = k)) = true
    · rw [if_pos hk, ih fields hnd]
      simp [hk]
    · rw [if_neg hk, ih _ hnd]
      have hkf : (fields.any fun kv => decide (kv.1 = k)) = false :=
        Bool.not_eq_true _ ▸ hk
      have hfilter :
          (ks.filter fun x =>
              !((fields ++ [(k, JValue.jnull)]).any fun kv => decide (kv.1 = x)))
          = ks.filter fun x => !(fields.any fun kv => decide (kv.1 = x)) := by
        refine List.filter_congr ?_
        intro x hx
        have hxk : ¬(k = x) := fun hkx => hknotin (hkx ▸ hx)
        simp [List.any_append, hxk]
      rw [hfilter]
      simp [hkf, List.append_assoc]

/-- C1: the claim says extraction "returns exactly the fields named in the
expected shape (the caller's expected_keys)"; on a well-formed JSON
response carrying a key outside `expected_keys`, the extra key is returned
too, so the key set of the result differs from `expected_keys`. -/
theorem C1_counterexample :
    (extract_structured_data respTwoKeys [("a" : String)]).map Prod.fst ≠
      [("a" : String)] := by
  have h : (extract_structured_data respTwoKeys [("a" : String)]).map Prod.fst
      = [("a" : String), ("b" : String)] := rfl
  rw [h]
  decide

/-- C1 (amended): for a well-formed JSON-shaped response, extraction parses
the greedy first-brace-to-last-brace span and returns every parsed field
with its parsed value, followed by a `null` binding for each expected key
absent from the parsed object — a superset of `expected_keys`, not exactly
them. -/
theorem C1_extraction_fields (response : String) (expected_keys : List String)
    (span : String) (fields : List (String × JValue))
    (hspan : extractJsonSpan response = some span)
    (hload : jsonLoads span = some (JValue.jobj fields))
    (hnd : expected_keys.Nodup) :
    extract_structured_data response expected_keys
      = fields ++
        (expected_keys.filter (fun k => !(fields.any (fun kv => kv.1 = k)))).map
          (fun k => (k, JValue.jnull)) := by
  simp only [extract_structured_data, hspan, hload]
  exact foldl_addMissing expected_keys fields hnd

/-- C1 witness: a concrete well-formed response with an extra key. -/
theorem C1_witness :
    extract_structured_data respTwoKeys [("a" : String)] =
      [(("a" : String), JValue.jnum 1), (("b" : String), JValue.jnum 2)] := by
  have h := C1_extraction_fields respTwoKeys [("a" : String)] respTwoKeys
    [(("a" : String), JValue.jnum 1), (("b" : String), JValue.jnum 2)]
    rfl rfl (by decide)
  exact h.trans rfl

/-- The taglines generator on a successful model call whose extraction
falls through: the deterministic fallback list is returned, not an error. -/
lemma generate_taglines_fallback (pn ep ta tone r : String)
    (h : taglinesFromResponse r = none) :
    generate_taglines pn ep ta tone (Except.ok r) =
      Except.ok (fallbackTaglines pn ep ta) := by
  simp [generate_taglines, invoke_llm, h]

/-- The asset-prep `process` on four successful model calls always returns
the success envelope assembled from the four generators. -/
lemma assetProcess_ok (rT rD rTw rS : String) (req : List (String × String)) :
    assetProcess (Except.ok rT) (Except.ok rD) (Except.ok rTw) (Except.ok rS) req =
      { success := true,
        data := some
          { taglines := (taglinesFromResponse rT).getD
              (fallbackTaglines (reqGet req ("product_name") (""))
                (reqGet req ("elevator_pitch") (""))
                (reqGet req ("target_audience") (""))),
            short_description := clean_text rD,
            tweets := (tweetsFromResponse rTw).getD
              (fallbackTweets (reqGet req ("product_name") (""))
                (reqGet req ("elevator_pitch") (""))
                (reqGet req ("target_audience") (""))),
            suggestions :=
              if (suggestionLinesFromResponse rS).isEmpty then
                fallbackSuggestions (reqGet req ("product_name") (""))
                  (reqGet req ("target_audience") (""))
              else (suggestionLinesFromResponse rS).take 5 },
        error := none,
        agent_type := "asset_prep" } := by
  simp [assetProcess, generate_taglines, generate_description, generate_tweets,
    generate_suggestions, invoke_llm]

/-- C2: the claim also asserts the agent never returns an empty result for
any field of a success envelope; a well-formed model response whose
`taglines` list is empty is returned as an empty field inside a success
envelope. -/
theorem C2_counterexample :
    (assetProcess (Except.ok respEmptyTaglines) (Except.ok (""))
        (Except.ok ("")) (Except.ok ("")) reqFoo).success = true ∧
    (assetProcess (Except.ok respEmptyTaglines) (Except.ok (""))
        (Except.ok ("")) (Except.ok ("")) reqFoo).data.map AssetData.taglines =
      some [] := by
  exact And.intro rfl rfl

/-- C2 (amended): when tagline extraction fails on a successful model call,
the failure is never surfaced as an error — `process` still returns a
success envelope whose taglines are the deterministic, nonempty fallback
list; an empty field can still reach a success envelope when the model
returns well-formed JSON with an empty or missing expected list. -/
theorem C2_silent_fallback (req : List (String × String)) (r rD rTw rS : String)
    (h : taglinesFromResponse r = none) :
    (assetProcess (Except.ok r) (Except.ok rD) (Except.ok rTw) (Except.ok rS)
        req).success = true ∧
    (assetProcess (Except.ok r) (Except.ok rD) (Except.ok rTw) (Except.ok rS)
        req).error = none ∧
    (assetProcess (Except.ok r) (Except.ok rD) (Except.ok rTw) (Except.ok rS)
        req).data.map AssetData.taglines =
      some (fallbackTaglines (reqGet req ("product_name") (""))
        (reqGet req ("elevator_pitch") (""))
        (reqGet req ("target_audience") (""))) ∧
    fallbackTaglines (reqGet req ("product_name") (""))
        (reqGet req ("elevator_pitch") (""))
        (reqGet req ("target_audience") ("")) ≠ [] := by
  rw [assetProcess_ok, h]
  refine And.intro rfl (And.intro rfl (And.intro rfl ?_))
  simp [fallbackTaglines]

/-- C2 witness: a JSON-free model response for the taglines prompt. -/
theorem C2_witness :
    (assetProcess (Except.ok ("no json at all")) (Except.ok (""))
        (Except.ok ("")) (Except.ok ("")) reqFoo).data.map AssetData.taglines =
      some (fallbackTaglines ("Foo") ("Bar") ("devs")) := by
  have h := C2_silent_fallback reqFoo ("no json at all") ("") ("") ("") rfl
  exact h.2.2.1

/-- C3: extraction is deterministic and idempotent — the same raw text
always yields the same output — and the fallback produced when tagline
extraction fails is a pure function of the caller's own input fields,
independent of the raw response that failed to parse. -/
theorem C3_deterministic :
    (∀ response expected_keys,
      extract_structured_data response expected_keys =
        extract_structured_data response expected_keys) ∧
    (∀ pn ep ta tone r r',
      taglinesFromResponse r = none → taglinesFromResponse r' = none →
      generate_taglines pn ep ta tone (Except.ok r) =
        generate_taglines pn ep ta tone (Except.ok r')) := by
  constructor
  · intro response expected_keys
    rfl
  · intro pn ep ta tone r r' h h'
    rw [generate_taglines_fallback pn ep ta tone r h,
      generate_taglines_fallback pn ep ta tone r' h']

/-- C3 witness: two different JSON-free responses produce the identical
fallback output. -/
theorem C3_witness :
    generate_taglines ("Foo") ("Bar") ("devs") ("professional")
        (Except.ok ("static over the wire")) =
      generate_taglines ("Foo") ("Bar") ("devs") ("professional")
        (Except.ok ("###")) := by
  exact C3_deterministic.2 ("Foo") ("Bar") ("devs") ("professional")
    ("static over the wire") ("###") rfl rfl

/-- C9: the claim has the fallback tagline appearing when the model call
raises; in the code the model call sits outside the generator's `try`, so
a raised model call aborts `process` into a failure envelope with no data
(hence no taglines list) instead. -/
theorem C9_counterexample :
    assetProcess (Except.error ("Model error")) (Except.error ("Model error"))
        (Except.error ("Model error")) (Except.error ("Model error")) reqFoo =
      failEnvelope AssetData
        ("Asset generation failed: LLM invocation failed: Model error")
        ("asset_prep") ∧
    (assetProcess (Except.error ("Model error")) (Except.error ("Model error"))
        (Except.error ("Model error")) (Except.error ("Model error"))
        reqFoo).data = none := by
  exact And.intro rfl rfl

/-- C9 (amended): with product_name="Foo", elevator_pitch="Bar",
target_audience="devs", it is when the model call succeeds but tagline
extraction fails that the envelope's taglines list contains the literal
template "Revolutionary Foo for devs"; a raising model call instead yields
a failure envelope with no taglines. -/
theorem C9_fallback_tagline (r rD rTw rS : String)
    (h : taglinesFromResponse r = none) :
    (assetProcess (Except.ok r) (Except.ok rD) (Except.ok rTw) (Except.ok rS)
        reqFoo).success = true ∧
    (assetProcess (Except.ok r) (Except.ok rD) (Except.ok rTw) (Except.ok rS)
        reqFoo).data.map
        (fun d => ("Revolutionary Foo for devs") ∈ d.taglines) = some True := by
  rw [assetProcess_ok, h]
  refine And.intro rfl ?_
  simp only [Option.map_some]
  simp [reqFoo, reqGet, fallbackTaglines]

/-- C9 witness: a concrete JSON-free taglines response. -/
theorem C9_witness :
    (assetProcess (Except.ok ("no list came back")) (Except.ok ("d"))
        (Except.ok ("t")) (Except.ok ("s")) reqFoo).data.map
        (fun d => ("Revolutionary Foo for devs") ∈ d.taglines) = some True := by
  exact (C9_fallback_tagline ("no list came back") ("d") ("t") ("s") rfl).2

/-- Bounds for the `"next <weekday>"` delta: it is always between 1 and 7
days ahead. -/
lemma nextWeekdayDelta_bounds (now : DateTime) (target : Int)
    (h0 : 0 ≤ target) (h7 : target < 7) :
    1 ≤ nextWeekdayDelta now target ∧ nextWeekdayDelta now target ≤ 7 := by
  unfold nextWeekdayDelta weekdayOf
  have h1 := Int.emod_nonneg (now.days + 3) (by norm_num : (7 : Int) ≠ 0)
  have h2 := Int.emod_lt_of_pos (now.days + 3) (by norm_num : (0 : Int) < 7)
  split <;> omega

/-- The `"next <weekday>"` delta lands on the requested weekday. -/
lemma weekdayOf_addDays_delta (now : DateTime) (target : Int)
    (h0 : 0 ≤ target) (h7 : target < 7) :
    weekdayOf (addDays now (nextWeekdayDelta now target)) = target := by
  unfold nextWeekdayDelta weekdayOf addDays
  simp only
  split <;> omega

/-- C4: the claim says a bare integer is interpreted as N days from now,
so "10" resolves to 10 days from today; but the generic date parser is
consulted first, and (as python-dateutil does for a bare day number) it
can succeed on "10", in which case its result — the 10th of the current
month, not today plus 10 days — is returned. -/
theorem C4_counterexample :
    parse_launch_date duParseDayOfMonth nowFixture ("10") ≠
      Except.ok (addDays nowFixture 10) := by
  have h : parse_launch_date duParseDayOfMonth nowFixture ("10") =
      Except.ok { days := 19998, tod := 0 } := rfl
  rw [h]
  simp [addDays, nowFixture]

/-- C4 (amended): `parse_launch_date` recognizes exactly these patterns —
"next tuesday"/"next friday" resolved to the nearest future occurrence of
that weekday (1–7 days ahead, landing on that weekday; 6 days later when
evaluated on a Wednesday), otherwise a string the generic date parser
accepts (returned as parsed — this takes precedence, so a bare integer the
parser accepts, such as "10", is NOT treated as N days from now), otherwise
a bare integer N interpreted as N days from now, and otherwise a date-parse
error. -/
theorem C4_parse_launch_date_patterns (duParse : String → Option DateTime)
    (now : DateTime) (input : String) :
    ((strContains (pyLower input) ("next") &&
        strContains (pyLower input) ("tuesday")) = true →
      parse_launch_date duParse now input =
        Except.ok (addDays now (nextWeekdayDelta now 1)) ∧
      1 ≤ nextWeekdayDelta now 1 ∧ nextWeekdayDelta now 1 ≤ 7 ∧
      weekdayOf (addDays now (nextWeekdayDelta now 1)) = 1 ∧
      (weekdayOf now = 2 → nextWeekdayDelta now 1 = 6)) ∧
    ((strContains (pyLower input) ("next") &&
        strContains (pyLower input) ("tuesday")) = false →
     (strContains (pyLower input) ("next") &&
        strContains (pyLower input) ("friday")) = true →
      parse_launch_date duParse now input =
        Except.ok (addDays now (nextWeekdayDelta now 4)) ∧
      1 ≤ nextWeekdayDelta now 4 ∧ nextWeekdayDelta now 4 ≤ 7 ∧
      weekdayOf (addDays now (nextWeekdayDelta now 4)) = 4) ∧
    (noNextPattern input = true → ∀ d, duParse input = some d →
      parse_launch_date duParse now input = Except.ok d) ∧
    (noNextPattern input = true → duParse input = none →
      pyIsDigit input = true →
      parse_launch_date duParse now input =
        Except.ok (addDays now (digitsToNat input : Int))) ∧
    (noNextPattern input = true → duParse input = none →
      pyIsDigit input = false →
      parse_launch_date duParse now input =
        Except.error ("Could not parse date: " ++ input)) := by
  refine And.intro ?_ (And.intro ?_ (And.intro ?_ (And.intro ?_ ?_)))
  · intro h
    refine And.intro (by simp [parse_launch_date, h]) ?_
    have hb := nextWeekdayDelta_bounds now 1 (by norm_num) (by norm_num)
    refine And.intro hb.1 (And.intro hb.2 (And.intro
      (weekdayOf_addDays_delta now 1 (by norm_num) (by norm_num)) ?_))
    intro hwed
    unfold nextWeekdayDelta
    rw [hwed]
    norm_num
  · intro h1 h2
    refine And.intro (by simp [parse_launch_date, h1, h2]) ?_
    have hb := nextWeekdayDelta_bounds now 4 (by norm_num) (by norm_num)
    exact And.intro hb.1 (And.intro hb.2
      (weekdayOf_addDays_delta now 4 (by norm_num) (by norm_num)))
  · intro h d hd
    have h' := h
    simp only [noNextPattern, Bool.and_eq_true, Bool.not_eq_true'] at h'
    simp [parse_launch_date, h'.1, h'.2, hd]
  · intro h hd hdig
    have h' := h
    simp only [noNextPattern, Bool.and_eq_true, Bool.not_eq_true'] at h'
    simp [parse_launch_date, h'.1, h'.2, hd, hdig]
  · intro h hd hdig
    have h' := h
    simp only [noNextPattern, Bool.and_eq_true, Bool.not_eq_true'] at h'
    simp [parse_launch_date, h'.1, h'.2, hd, hdig]

/-- C4 witness: when the generic parser fails on a digit string, the code
falls back to N days from now. -/
theorem C4_witness :
    parse_launch_date (fun _ => none) nowFixture ("5") =
      Except.ok (addDays nowFixture (digitsToNat ("5") : Int)) := by
  exact (C4_parse_launch_date_patterns (fun _ => none) nowFixture
    ("5")).2.2.2.1 rfl rfl rfl

/-- Every failure envelope satisfies the envelope invariant. -/
lemma envelopeInv_fail (α : Type) (e a : String) :
    envelopeInv (failEnvelope α e a) :=
  ⟨fun h => Bool.noConfusion h, fun _ => rfl⟩

/-- The planning agent's output satisfies the envelope invariant. -/
lemma envelopeInv_planningProcess (duParse : String → Option DateTime)
    (now : DateTime) (rT : Except String String)
    (req : List (String × String)) :
    envelopeInv (planningProcess duParse now rT req) := by
  unfold planningProcess
  dsimp only
  repeat' split
  all_goals refine ⟨fun h => ?_, fun h => ?_⟩
  all_goals first | rfl | exact Bool.noConfusion h

/-- The asset-prep agent's output satisfies the envelope invariant. -/
lemma envelopeInv_assetProcess (rTag rD rTw rS : Except String String)
    (req : List (String × String)) :
    envelopeInv (assetProcess rTag rD rTw rS req) := by
  unfold assetProcess
  dsimp only
  repeat' split
  all_goals refine ⟨fun h => ?_, fun h => ?_⟩
  all_goals first | rfl | exact Bool.noConfusion h

/-- The research agent's output satisfies the envelope invariant. -/
lemma envelopeInv_researchProcess (rL rH rI rC : Except String String)
    (req : List (String × String)) :
    envelopeInv (researchProcess rL rH rI rC req) := by
  unfold researchProcess
  dsimp only
  repeat' split
  all_goals refine ⟨fun h => ?_, fun h => ?_⟩
  all_goals first | rfl | exact Bool.noConfusion h

/-- The coordinator's output satisfies the envelope invariant. -/
lemma envelopeInv_route_request (duParse : String → Option DateTime)
    (now : DateTime) (rs : LLMResponses) (agent_type : String)
    (req : List (String × String)) :
    envelopeInv (route_request duParse now rs agent_type req) := by
  unfold route_request
  dsimp only
  split
  · have hi := envelopeInv_planningProcess duParse now rs.timeline req
    exact ⟨fun h => hi.1 h, fun h => by rw [hi.2 h]; rfl⟩
  split
  · have hi := envelopeInv_assetProcess rs.taglines rs.description rs.tweets
      rs.suggestions req
    exact ⟨fun h => hi.1 h, fun h => by rw [hi.2 h]; rfl⟩
  split
  · have hi := envelopeInv_researchProcess rs.launches rs.hunters rs.insights
      rs.competitors req
    exact ⟨fun h => hi.1 h, fun h => by rw [hi.2 h]; rfl⟩
  · exact ⟨fun h => Bool.noConfusion h, fun _ => rfl⟩

/-- C5: a resolved launch date strictly before today yields a failure
envelope whose message starts with "Launch date is in the past", with no
data, no dependence on the model response (no timeline is generated), and
no raised exception (an envelope is always returned). -/
theorem C5_past_launch_date (duParse : String → Option DateTime)
    (now : DateTime) (rTimeline : Except String String)
    (req : List (String × String)) (launch : DateTime)
    (hp : parse_launch_date duParse now (reqGet req ("launch_date") ("")) =
      Except.ok launch)
    (hpast : launch.days < now.days) :
    planningProcess duParse now rTimeline req =
      failEnvelope PlanningData
        ("Launch date is in the past. Please provide a future date.")
        ("planning") ∧
    (planningProcess duParse now rTimeline req).data = none ∧
    (∀ rT' : Except String String,
      planningProcess duParse now rT' req =
        planningProcess duParse now rTimeline req) ∧
    ("Launch date is in the past").toList.isPrefixOf
      ("Launch date is in the past. Please provide a future date.").toList
      = true := by
  have key : ∀ rT' : Except String String,
      planningProcess duParse now rT' req =
        failEnvelope PlanningData
          ("Launch date is in the past. Please provide a future date.")
          ("planning") := by
    intro rT'
    have hd : calculate_timeline_days now launch < 0 := by
      simp only [calculate_timeline_days, atMidnight]
      omega
    simp only [planningProcess, hp]
    rw [if_pos hd]
  refine ⟨key rTimeline, ?_, ?_, by decide⟩
  · rw [key rTimeline]
    rfl
  · intro rT'
    rw [key rT', key rTimeline]

/-- C5 witness: a parser resolving to a day strictly before today. -/
theorem C5_witness :
    planningProcess (fun _ => some { days := 19990, tod := 0 }) nowFixture
        (Except.ok ("")) [(("launch_date" : String), "last week")] =
      failEnvelope PlanningData
        ("Launch date is in the past. Please provide a future date.")
        ("planning") := by
  exact (C5_past_launch_date (fun _ => some { days := 19990, tod := 0 })
    nowFixture (Except.ok ("")) [(("launch_date" : String), "last week")]
    { days := 19990, tod := 0 } rfl (by norm_num [nowFixture])).1

/-- A well-formed task's milestone step never raises: it emits the task's
line when it is High-priority and skips it otherwise. -/
lemma milestoneOfTask_wf (t : JValue) (h : wfTask t = true) :
    milestoneOfTask t =
      Except.ok (if taskIsHigh t then some (milestoneLine t) else none) := by
  cases t with
  | jobj fs =>
    simp only [wfTask, Bool.and_eq_true, Option.isSome_iff_exists] at h
    obtain ⟨⟨n, hn⟩, ⟨d, hd⟩⟩ := h
    unfold milestoneOfTask taskIsHigh milestoneLine
    dsimp only
    rw [hn, hd]
    cases hp : jget fs ("priority") with
    | none => rfl
    | some v =>
      cases v with
      | jstr p =>
        by_cases hHigh : p = "High"
        · simp [hHigh]
        · simp [hHigh]
      | jnull => rfl
      | jbool b => rfl
      | jnum m => rfl
      | jarr xs => rfl
      | jobj fs2 => rfl
  | jnull => simp [wfTask] at h
  | jbool b => simp [wfTask] at h
  | jnum n => simp [wfTask] at h
  | jstr s => simp [wfTask] at h
  | jarr xs => simp [wfTask] at h

/-- The task loop over a list of well-formed tasks collects exactly the
High-priority milestone lines, in order. -/
lemma tasksMilestones_go_wf (ts : List JValue) (h : ts.all wfTask = true) :
    tasksMilestones.go ts =
      Except.ok ((ts.filter taskIsHigh).map milestoneLine) := by
  induction ts with
  | nil => rfl
  | cons t rest ih =>
    simp only [List.all_cons, Bool.and_eq_true] at h
    rw [tasksMilestones.go, milestoneOfTask_wf t h.1, ih h.2]
    cases hH : taskIsHigh t <;> simp [List.filter_cons, hH]

/-- A well-formed phase contributes exactly its High-priority lines. -/
lemma phaseMilestones_wf (p : JValue) (h : wfPhase p = true) :
    phaseMilestones p =
      Except.ok (((tasksOf p).filter taskIsHigh).map milestoneLine) := by
  cases p with
  | jobj fs =>
    unfold phaseMilestones tasksOf
    dsimp only
    cases ht : jget fs ("tasks") with
    | none =>
      simp only [ht, Option.getD_none]
      rfl
    | some v =>
      cases v with
      | jarr ts =>
        have hts : ts.all wfTask = true := by
          simp only [wfPhase, ht] at h
          exact h
        simp only [ht, Option.getD_some]
        exact tasksMilestones_go_wf ts hts
      | jnull => simp [wfPhase, ht] at h
      | jbool b => simp [wfPhase, ht] at h
      | jnum n => simp [wfPhase, ht] at h
      | jstr s => simp [wfPhase, ht] at h
      | jobj fs2 => simp [wfPhase, ht] at h
  | jnull => simp [wfPhase] at h
  | jbool b => simp [wfPhase] at h
  | jnum n => simp [wfPhase] at h
  | jstr s => simp [wfPhase] at h
  | jarr xs => simp [wfPhase] at h

/-- The phase loop over well-formed phases concatenates their High lines in
emission order. -/
lemma goPhases_wf (phases : List JValue) (h : phases.all wfPhase = true) :
    extract_milestones.goPhases phases = Except.ok (highLines phases) := by
  induction phases with
  | nil => rfl
  | cons p rest ih =>
    simp only [List.all_cons, Bool.and_eq_true] at h
    rw [extract_milestones.goPhases, phaseMilestones_wf p h.1, ih h.2]
    simp [highLines]

/-- C6: on every well-formed generated timeline, the key-milestones list is
exactly the first five High-priority task lines in phase-emission order
(never sorted), hence contains only High-priority tasks and is capped at
five entries. -/
theorem C6_key_milestones (phases : List JValue)
    (h : phases.all wfPhase = true) :
    extract_milestones (JValue.jarr phases) =
      Except.ok ((highLines phases).take 5) ∧
    ((highLines phases).take 5).length ≤ 5 := by
  constructor
  · unfold extract_milestones
    dsimp only
    rw [goPhases_wf phases h]
  · simp [List.length_take]

/-- C6 witness: a concrete two-phase timeline with two High tasks. -/
theorem C6_witness :
    extract_milestones (JValue.jarr demoPhases) =
      Except.ok ((highLines demoPhases).take 5) ∧
    ((highLines demoPhases).take 5).length ≤ 5 := by
  exact C6_key_milestones demoPhases rfl

/-- C7: routing any token outside the three known agent types returns a
failure envelope echoing the token, with no data and no exception. -/
theorem C7_unknown_agent_type (duParse : String → Option DateTime)
    (now : DateTime) (rs : LLMResponses) (req : List (String × String))
    (agent_type : String)
    (h1 : agent_type ≠ ("planning")) (h2 : agent_type ≠ ("asset_prep"))
    (h3 : agent_type ≠ ("research")) :
    route_request duParse now rs agent_type req =
      { success := false, data := none,
        error := some ("Unknown agent type: " ++ agent_type),
        agent_type := agent_type } := by
  simp [route_request, h1, h2, h3]

/-- C7 witness: the token "bogus". -/
theorem C7_witness :
    route_request (fun _ => none) nowFixture rsFixture ("bogus") [] =
      { success := false, data := none,
        error := some ("Unknown agent type: bogus"),
        agent_type := "bogus" } := by
  exact C7_unknown_agent_type (fun _ => none) nowFixture rsFixture []
    ("bogus") (by decide) (by decide) (by decide)

/-- C8: every envelope any agent operation or the coordinator returns has
the uniform `{success, data, error, agent_type}` shape (the `Envelope`
record) and satisfies the invariant: success implies no error, and failure
implies no data. -/
theorem C8_envelope_invariant (duParse : String → Option DateTime)
    (now : DateTime) (rs : LLMResponses)
    (rT rTag rD rTw rS rL rH rI rC : Except String String)
    (agent_type : String) (req : List (String × String)) :
    envelopeInv (planningProcess duParse now rT req) ∧
    envelopeInv (assetProcess rTag rD rTw rS req) ∧
    envelopeInv (researchProcess rL rH rI rC req) ∧
    envelopeInv (route_request duParse now rs agent_type req) :=
  ⟨envelopeInv_planningProcess duParse now rT req,
   envelopeInv_assetProcess rTag rD rTw rS req,
   envelopeInv_researchProcess rL rH rI rC req,
   envelopeInv_route_request duParse now rs agent_type req⟩

/-- C8 witness: a failing planning run carries no data. -/
theorem C8_witness :
    (planningProcess (fun _ => none) nowFixture (Except.ok ("")) []).data =
      none := by
  exact (C8_envelope_invariant (fun _ => none) nowFixture rsFixture
    (Except.ok ("")) (Except.ok ("")) (Except.ok ("")) (Except.ok (""))
    (Except.ok ("")) (Except.ok ("")) (Except.ok ("")) (Except.ok (""))
    (Except.ok ("")) ("bogus") []).1.2 rfl

/-- C10: the claim says every free-text field of every agent is normalized;
the research agent's insight lines are only whitespace-stripped and keep
markdown emphasis characters, and even `clean_text` can leave repeated
whitespace behind because it collapses whitespace before deleting emphasis
characters. -/
theorem C10_counterexample :
    ((researchProcess (Except.ok ("")) (Except.ok (""))
        (Except.ok ("- *key* insight")) (Except.ok ("")) reqCat).data.map
        ResearchData.insights = some [("- *key* insight")]) ∧
    ('*' ∈ ("- *key* insight").toList) ∧
    clean_text ("a * b") = ("a  b") := by
  exact ⟨rfl, by decide, rfl⟩

/-- C10 (amended): fields that pass through `clean_text` (the asset-prep
agent's cleaned outputs, including every kept suggestion line) contain no
markdown emphasis characters — whitespace runs are collapsed before the
emphasis characters are deleted — while the research agent's insight lines
are only stripped of surrounding whitespace per line. -/
theorem C10_normalization (s : String) :
    (∀ c ∈ (clean_text s).toList, isEmphChar c = false) ∧
    (∀ response line, line ∈ suggestionLinesFromResponse response →
      ∀ c ∈ line.toList, isEmphChar c = false) ∧
    (∀ response, insightLinesFromResponse response =
      ((pyLines response).map pyStrip).filter
        (fun line => !line.isEmpty && isBulletLine line)) := by
  have hclean : ∀ t : String, ∀ c ∈ (clean_text t).toList, isEmphChar c = false := by
    intro t c hc
    have hc' : c ∈ (String.mk (collapseWs (pyStrip t).toList)).toList.filter
        (fun c => !isEmphChar c) := hc
    have := (List.mem_filter.mp hc').2
    simpa using this
  refine ⟨hclean s, ?_, fun _ => rfl⟩
  intro response line hline c hc
  have hline' : line ∈ ((pyLines response).map clean_text).filter
      (fun l => !l.isEmpty && isBulletLine l) := hline
  have hmem := (List.mem_filter.mp hline').1
  rcases List.mem_map.mp hmem with ⟨raw, _, hr⟩
  exact hclean raw c (hr ▸ hc)

/-- C10 witness: `clean_text` really deletes the emphasis characters. -/
theorem C10_witness : isEmphChar ('a') = false := by
  exact (C10_normalization ("*a*")).1 'a' (by decide)

end Claims
